import Mathlib

/-!
Shallow embedding of the qms-trading-bot broker layer.

Modelled source files:
  src/broker/broker_factory.py      (create_broker)
  src/broker/webull/webull_broker.py (WebullBroker: get current allocation,
                                      get account cash, buy, sell, and the
                                      instrument-id helper)

Conventions of the embedding:
  - A vendor HTTP call is modelled as a value of type
    Except String (Response body): Except.error is a transport-level
    exception raised by the vendor client, Except.ok is a response
    carrying a status code and a parsed JSON body.
  - Python float amounts and prices are modelled as rationals.
  - Python int(x) truncation toward zero is pyInt.
  - Python truthiness of an optional string (None and the empty string
    are falsy) is pyTruthy; truthiness of a number is comparison with 0.
  - buy and sell return a pair: the outcome seen by the caller
    (Except.error would be a propagated exception) together with the list
    of order requests actually submitted to the vendor during the call.
-/

/-- Python int() applied to a rational: truncation toward zero. -/
def pyInt (q : ℚ) : ℤ := if 0 ≤ q then ⌊q⌋ else -⌊-q⌋

/-- Python truthiness of an optional string: None and "" are falsy. -/
def pyTruthy (o : Option String) : Prop := o.getD "" ≠ ""

instance (o : Option String) : Decidable (pyTruthy o) := by
  unfold pyTruthy; infer_instance

/-- Python x or y for numbers: x if x is non-zero, else y. -/
def pyOr (x y : ℚ) : ℚ := if x ≠ 0 then x else y

/-- A vendor API response: status code plus parsed JSON body. -/
structure Response (α : Type) where
  status_code : ℕ
  body : α
deriving Repr, DecidableEq

/-- Outcome of a vendor API call: a raised transport-level exception
(error message) or a response. -/
abbrev VendorCall (α : Type) := Except String (Response α)

/-- One holding record from the position endpoint payload.  A missing
symbol key is none; numeric fields parsed with float(h.get(key, 0)). -/
structure Holding where
  symbol : Option String
  qty : ℚ
  last_price : ℚ
  market_value : ℚ
deriving Repr, DecidableEq

/-- Payload of the position endpoint: positions_data.get("holdings", []). -/
structure PositionsData where
  holdings : List Holding
deriving Repr, DecidableEq

/-- Payload of the balance endpoint; each field may be absent. -/
structure BalanceData where
  stock_power : Option ℚ
  available_to_withdraw : Option ℚ
  settled_cash : Option ℚ
  total_cash : Option ℚ
deriving Repr, DecidableEq

/-- One instrument record from the instrument-lookup payload. -/
structure InstrumentRecord where
  instrument_id : Option String
deriving Repr, DecidableEq

/-- The internal Allocation model: one held position. -/
structure Allocation where
  symbol : String
  quantity : ℚ
  current_price : ℚ
  market_value : ℚ
deriving Repr, DecidableEq

/-- A stock order request as built by buy and sell and handed to
place_order_v2. -/
structure OrderReq where
  account_id : String
  client_order_id : String
  instrument_id : String
  side : String
  tif : String
  order_type : String
  qty : ℤ
deriving Repr, DecidableEq

namespace WebullBroker

/-- The outcomes of the vendor calls a sell can make. -/
structure SellEnv where
  instrument : VendorCall (List InstrumentRecord)
  place_order : OrderReq → VendorCall Unit

/-- The outcomes of the vendor calls a buy can make. -/
structure BuyEnv where
  instrument : VendorCall (List InstrumentRecord)
  positions : VendorCall PositionsData
  place_order : OrderReq → VendorCall Unit

/-- WebullBroker get_instrument_id: returns the first instrument record
identifier on a 200 response with a non-empty list, none otherwise; its
own try/except turns any raised exception into none. -/
def get_instrument_id (call : VendorCall (List InstrumentRecord)) : Option String :=
  match call with
  | Except.error _ => none
  | Except.ok r =>
    if r.status_code = 200 then
      match r.body with
      | [] => none
      | i :: _ => i.instrument_id
    else none

/-- The loop of get_current_allocation: appends an Allocation for each
holding passing the filter quantity > 0 and symbol and last_price > 0. -/
def allocLoop : List Holding → List Allocation → List Allocation
  | [], acc => acc
  | h :: rest, acc =>
    if 0 < h.qty ∧ pyTruthy h.symbol ∧ 0 < h.last_price then
      allocLoop rest (acc ++ [{ symbol := h.symbol.getD "",
                                quantity := h.qty,
                                current_price := h.last_price,
                                market_value := h.market_value }])
    else
      allocLoop rest acc

/-- WebullBroker get_current_allocation: empty list on a non-200 status,
the filtered holdings on a 200 response; a raised exception is logged and
re-raised, so it propagates as Except.error. -/
def get_current_allocation (call : VendorCall PositionsData) :
    Except String (List Allocation) :=
  match call with
  | Except.error e => Except.error e
  | Except.ok r =>
    if r.status_code ≠ 200 then Except.ok []
    else Except.ok (allocLoop r.body.holdings [])

/-- WebullBroker get_account_cash: raises on a non-200 status, otherwise
the chain balance_data.get(f, 0) or ... over stock_power,
available_to_withdraw, settled_cash, total_cash, 0.0. -/
def get_account_cash (call : VendorCall BalanceData) : Except String ℚ :=
  match call with
  | Except.error e => Except.error e
  | Except.ok r =>
    if r.status_code ≠ 200 then
      Except.error ("Failed to get account balance: " ++ toString r.status_code)
    else
      Except.ok (pyOr (r.body.stock_power.getD 0)
        (pyOr (r.body.available_to_withdraw.getD 0)
          (pyOr (r.body.settled_cash.getD 0)
            (pyOr (r.body.total_cash.getD 0) 0))))

/-- The price-discovery loop inside buy: for each holding whose symbol
equals the requested symbol, overwrite last_price with its price and stop
at the first positive one. -/
def priceLoop (symbol : String) : List Holding → Option ℚ → Option ℚ
  | [], lp => lp
  | h :: rest, lp =>
    if h.symbol = some symbol then
      if 0 < h.last_price then some h.last_price
      else priceLoop symbol rest (some h.last_price)
    else priceLoop symbol rest lp

/-- The fixed estimate price used by buy when no position price is found. -/
def estimated_price : ℚ := 50

/-- The outer except-Exception handler of buy and sell: a raised
exception is logged and converted into a false return; the submitted
orders are unchanged. -/
def catchFalse : Except String Bool × List OrderReq → Except String Bool × List OrderReq
  | (Except.error _, subs) => (Except.ok false, subs)
  | (Except.ok b, subs) => (Except.ok b, subs)

/-- Handling of the place_order_v2 response shared by buy and sell: a
raised exception escapes the try body, a 200 response means true and any
other status means false. -/
def orderOutcome (po : VendorCall Unit) : Except String Bool :=
  match po with
  | Except.error e => Except.error e
  | Except.ok r => if r.status_code = 200 then Except.ok true else Except.ok false

/-- Body of the try block of sell: resolve the instrument id (the
source guard if not instrument_id treats both None and an empty string
as failure and returns false), build a SELL MARKET DAY order with qty =
int(quantity), and submit it; a non-200 response gives false, a raised
exception escapes as Except.error. -/
def sellBody (env : SellEnv) (account_id symbol uuidHex : String) (quantity : ℚ) :
    Except String Bool × List OrderReq :=
  let instrument_id := get_instrument_id env.instrument
  if ¬ pyTruthy instrument_id then (Except.ok false, [])
  else
    let req : OrderReq :=
      { account_id := account_id,
        client_order_id := "sell_" ++ symbol ++ "_" ++ uuidHex,
        instrument_id := instrument_id.getD "",
        side := "SELL",
        tif := "DAY",
        order_type := "MARKET",
        qty := pyInt quantity }
    (orderOutcome (env.place_order req), [req])

/-- WebullBroker sell: the try body wrapped in the except-Exception
handler. -/
def sell (env : SellEnv) (account_id symbol uuidHex : String) (quantity : ℚ) :
    Except String Bool × List OrderReq :=
  catchFalse (sellBody env account_id symbol uuidHex quantity)

/-- The inner try block of buy that discovers a last price from the
positions endpoint: a raised exception or a non-200 status leaves the
price at None, a 200 response is scanned by priceLoop. -/
def lastPriceFromPositions (po : VendorCall PositionsData) (symbol : String) : Option ℚ :=
  match po with
  | Except.error _ => none
  | Except.ok r =>
    if r.status_code = 200 then priceLoop symbol r.body.holdings none
    else none

/-- Body of the try block of buy: resolve the instrument id (the source
guard if not instrument_id treats both None and an empty string as
failure and returns false); scan positions for a last price (the inner
try turns a positions exception into no price); compute a quantity
estimate in each branch, then unconditionally recompute quantity =
int(amount / last_price), which raises TypeError when last_price is None
and ZeroDivisionError when it is 0; a zero quantity gives false;
otherwise submit a BUY MARKET DAY order. -/
def buyBody (env : BuyEnv) (account_id symbol uuidHex : String) (amount : ℚ) :
    Except String Bool × List OrderReq :=
  let instrument_id := get_instrument_id env.instrument
  if ¬ pyTruthy instrument_id then (Except.ok false, [])
  else
    match lastPriceFromPositions env.positions symbol with
    | none =>
      let _estQty : ℤ := max 1 (pyInt (amount / estimated_price))
      (Except.error "TypeError: unsupported operand types for div: float and NoneType", [])
    | some lp =>
      if lp = 0 then
        let _estQty : ℤ := max 1 (pyInt (amount / estimated_price))
        (Except.error "ZeroDivisionError: float division by zero", [])
      else
        let _posQty : ℤ := max 1 (pyInt (amount / lp))
        let quantity : ℤ := pyInt (amount / lp)
        if quantity = 0 then (Except.ok false, [])
        else
          let req : OrderReq :=
            { account_id := account_id,
              client_order_id := "buy_" ++ symbol ++ "_" ++ uuidHex,
              instrument_id := instrument_id.getD "",
              side := "BUY",
              tif := "DAY",
              order_type := "MARKET",
              qty := quantity }
          (orderOutcome (env.place_order req), [req])

/-- WebullBroker buy: the try body wrapped in the except-Exception
handler. -/
def buy (env : BuyEnv) (account_id symbol uuidHex : String) (amount : ℚ) :
    Except String Bool × List OrderReq :=
  catchFalse (buyBody env account_id symbol uuidHex amount)

end WebullBroker

/-- The broker-related configuration fields read by create_broker.
String-typed credential fields may be None (absent); Python truthiness
makes None and the empty string equally falsy. -/
structure BrokerSettings where
  broker_type : String
  alpaca_api_key : Option String
  alpaca_api_secret : Option String
  alpaca_base_url : Option String
  robinhood_username : Option String
  robinhood_password : Option String
  robinhood_mfa_code : Option String
  webull_app_key : Option String
  webull_app_secret : Option String
  webull_account_id : Option String
  webull_region : String
deriving Repr, DecidableEq

/-- The concrete adapter constructor call the factory hands off to,
with the arguments it passes.  Constructing an adapter is where
account-discovery network calls happen; the factory itself performs
none. -/
inductive BrokerCtor
  | alpaca (api_key api_secret : String) (base_url : Option String)
  | robinhood (username password : String) (mfa_code : Option String)
  | webull (app_key app_secret : String) (account_id : Option String) (region : String)
deriving Repr, DecidableEq

/-- Result of create_broker: a ValueError raised in the factory itself,
or the adapter constructor invocation it returns. -/
inductive FactoryResult
  | err (msg : String)
  | constructed (b : BrokerCtor)
deriving Repr, DecidableEq

/-- create_broker from broker_factory.py: dispatch on broker_type,
check credential presence, then construct the adapter. -/
def create_broker (cfg : BrokerSettings) : FactoryResult :=
  if cfg.broker_type = "alpaca" then
    if ¬ pyTruthy cfg.alpaca_api_key ∨ ¬ pyTruthy cfg.alpaca_api_secret then
      FactoryResult.err "Alpaca API key and secret are required"
    else
      FactoryResult.constructed (BrokerCtor.alpaca
        (cfg.alpaca_api_key.getD "") (cfg.alpaca_api_secret.getD "") cfg.alpaca_base_url)
  else if cfg.broker_type = "robinhood" then
    if ¬ pyTruthy cfg.robinhood_username ∨ ¬ pyTruthy cfg.robinhood_password then
      FactoryResult.err "Robinhood username and password are required"
    else
      FactoryResult.constructed (BrokerCtor.robinhood
        (cfg.robinhood_username.getD "") (cfg.robinhood_password.getD "") cfg.robinhood_mfa_code)
  else if cfg.broker_type = "webull" then
    if ¬ pyTruthy cfg.webull_app_key ∨ ¬ pyTruthy cfg.webull_app_secret then
      FactoryResult.err "Webull App Key and App Secret are required. Get them from developer.webull.com"
    else
      FactoryResult.constructed (BrokerCtor.webull
        (cfg.webull_app_key.getD "") (cfg.webull_app_secret.getD "")
        cfg.webull_account_id cfg.webull_region)
  else
    FactoryResult.err ("Unsupported broker type: " ++ cfg.broker_type)

/-!
Spec-side definitions.  These follow the wording of the specification,
to be compared with the definitions embedded from the source.
-/

/-- Spec wording for the allocation filter: keep a holding with positive
quantity, a present (non-empty) symbol and positive last price, mapped
to Allocation(symbol, quantity, last_price, market_value). -/
def allocationOfHolding (h : Holding) : Option Allocation :=
  match h.symbol with
  | none => none
  | some s =>
    if s ≠ "" ∧ 0 < h.qty ∧ 0 < h.last_price then
      some { symbol := s, quantity := h.qty,
             current_price := h.last_price, market_value := h.market_value }
    else none

/-- Spec wording for get_account_cash: the first non-zero value among
stock_power, available_to_withdraw, settled_cash and total_cash in that
order, and 0 when all are absent or zero. -/
def firstNonZeroCash (bd : BalanceData) : ℚ :=
  match bd.stock_power with
  | some v => if v ≠ 0 then v else firstNonZeroCashA bd
  | none => firstNonZeroCashA bd
where
  firstNonZeroCashA (bd : BalanceData) : ℚ :=
    match bd.available_to_withdraw with
    | some v => if v ≠ 0 then v else firstNonZeroCashS bd
    | none => firstNonZeroCashS bd
  firstNonZeroCashS (bd : BalanceData) : ℚ :=
    match bd.settled_cash with
    | some v => if v ≠ 0 then v else firstNonZeroCashT bd
    | none => firstNonZeroCashT bd
  firstNonZeroCashT (bd : BalanceData) : ℚ :=
    match bd.total_cash with
    | some v => if v ≠ 0 then v else 0
    | none => 0

/-- The premise of the amended claim C2: the positions lookup yields no
usable price for the symbol, because the request raised, the status was
not 200, or every holding for the symbol carries last price 0 (in
particular when there is no holding for the symbol at all). -/
def noUsablePrice (po : VendorCall PositionsData) (symbol : String) : Prop :=
  ∀ r : Response PositionsData, po = Except.ok r →
    r.status_code ≠ 200 ∨ ∀ h ∈ r.body.holdings, h.symbol = some symbol → h.last_price = 0

/-- The premise of claim C2 as stated: no holding for the symbol with a
positive last price is found from the positions endpoint (vacuously true
when the positions request raised). -/
def noPositivePriceFound (po : VendorCall PositionsData) (symbol : String) : Prop :=
  ∀ r : Response PositionsData, po = Except.ok r →
    ∀ h ∈ r.body.holdings, h.symbol = some symbol → ¬ 0 < h.last_price

/-!
Helper lemmas shared by the claim theorems.
-/

/-- The spec-side allocation filter agrees pointwise with the condition
tested by the loop in the source. -/
theorem allocationOfHolding_eq (h : Holding) :
    allocationOfHolding h =
      if 0 < h.qty ∧ pyTruthy h.symbol ∧ 0 < h.last_price then
        some { symbol := h.symbol.getD "", quantity := h.qty,
               current_price := h.last_price, market_value := h.market_value }
      else none := by
  rcases h with ⟨sym, q, lp, mv⟩
  cases sym with
  | none => simp [allocationOfHolding, pyTruthy]
  | some s =>
    by_cases h1 : s = "" <;> by_cases h2 : 0 < q <;> by_cases h3 : 0 < lp <;>
      simp [allocationOfHolding, pyTruthy, h1, h2, h3]

/-- The append-accumulator loop of get_current_allocation computes a
filterMap of the spec-side filter. -/
theorem allocLoop_eq (hs : List Holding) (acc : List Allocation) :
    WebullBroker.allocLoop hs acc = acc ++ hs.filterMap allocationOfHolding := by
  induction hs generalizing acc with
  | nil => simp [WebullBroker.allocLoop]
  | cons h rest ih =>
    by_cases hc : 0 < h.qty ∧ pyTruthy h.symbol ∧ 0 < h.last_price
    · simp [WebullBroker.allocLoop, hc, ih, List.filterMap_cons, allocationOfHolding_eq]
    · simp [WebullBroker.allocLoop, hc, ih, List.filterMap_cons, allocationOfHolding_eq]

/-- The outer exception handler does not change the list of submitted
orders. -/
theorem catchFalse_snd (p : Except String Bool × List OrderReq) :
    (WebullBroker.catchFalse p).2 = p.2 := by
  rcases p with ⟨e | b, subs⟩ <;> rfl

/-- When every holding for the symbol carries last price zero, the price
scan of buy ends with no price or price zero. -/
theorem priceLoop_no_usable (symbol : String) (hs : List Holding) (lp : Option ℚ)
    (hzero : ∀ h ∈ hs, h.symbol = some symbol → h.last_price = 0)
    (hlp : lp = none ∨ lp = some 0) :
    WebullBroker.priceLoop symbol hs lp = none ∨
      WebullBroker.priceLoop symbol hs lp = some 0 := by
  induction hs generalizing lp with
  | nil => simpa [WebullBroker.priceLoop] using hlp
  | cons h rest ih =>
    by_cases hm : h.symbol = some symbol
    · have h0 : h.last_price = 0 := hzero h (by simp) hm
      have : ¬ 0 < h.last_price := by rw [h0]; exact lt_irrefl 0
      simp only [WebullBroker.priceLoop, if_pos hm, if_neg this, h0]
      exact ih _ (fun g hg hgs => hzero g (List.mem_cons_of_mem _ hg) hgs) (Or.inr rfl)
    · simp only [WebullBroker.priceLoop, if_neg hm]
      exact ih _ (fun g hg hgs => hzero g (List.mem_cons_of_mem _ hg) hgs) hlp

/-- Under the no-usable-price premise the inner try block of buy yields
no price or price zero. -/
theorem lastPrice_no_usable (po : VendorCall PositionsData) (symbol : String)
    (h : noUsablePrice po symbol) :
    WebullBroker.lastPriceFromPositions po symbol = none ∨
      WebullBroker.lastPriceFromPositions po symbol = some 0 := by
  cases hpo : po with
  | error e => exact Or.inl rfl
  | ok r =>
    rcases h r hpo with h200 | hall
    · exact Or.inl (by simp [WebullBroker.lastPriceFromPositions, h200])
    · by_cases hsc : r.status_code = 200
      · simpa [WebullBroker.lastPriceFromPositions, hsc] using
          priceLoop_no_usable symbol r.body.holdings none hall (Or.inl rfl)
      · exact Or.inl (by simp [WebullBroker.lastPriceFromPositions, hsc])

/-- The pyOr chain of get_account_cash equals the spec-side first
non-zero cash field. -/
theorem pyOr_chain_eq (bd : BalanceData) :
    pyOr (bd.stock_power.getD 0)
      (pyOr (bd.available_to_withdraw.getD 0)
        (pyOr (bd.settled_cash.getD 0)
          (pyOr (bd.total_cash.getD 0) 0))) = firstNonZeroCash bd := by
  rcases bd with ⟨sp, aw, sc, tc⟩
  cases sp <;> cases aw <;> cases sc <;> cases tc <;>
    simp only [firstNonZeroCash, firstNonZeroCash.firstNonZeroCashA,
      firstNonZeroCash.firstNonZeroCashS, firstNonZeroCash.firstNonZeroCashT,
      pyOr, Option.getD] <;>
    split_ifs <;> simp_all

/-!
Claim theorems.
-/

/-- C4: for every balance payload returned with success (status 200),
get_account_cash returns the first non-zero value among stock_power,
available_to_withdraw, settled_cash and total_cash in that order, and 0
when all are absent or zero; in particular a payload with settled_cash
500 and total_cash 1000 and no earlier field yields 500. -/
theorem getAccountCash_first_nonzero :
    (∀ bd : BalanceData,
        WebullBroker.get_account_cash (Except.ok ⟨200, bd⟩) =
          Except.ok (firstNonZeroCash bd)) ∧
    WebullBroker.get_account_cash
        (Except.ok ⟨200, ⟨none, none, some 500, some 1000⟩⟩) = Except.ok 500 := by
  constructor
  · intro bd
    simp [WebullBroker.get_account_cash, pyOr_chain_eq]
  · rfl

/-- C5: for every positions payload returned with success, the result of
get_current_allocation is exactly the filterMap of the spec-side filter
keeping holdings with positive quantity, present symbol and positive
last price; every returned Allocation has positive quantity, a non-empty
symbol and positive price; and the example holding with quantity 10,
symbol AAPL and last price 150 appears as the corresponding Allocation. -/
theorem getCurrentAllocation_filters :
    (∀ pd : PositionsData,
        WebullBroker.get_current_allocation (Except.ok ⟨200, pd⟩) =
          Except.ok (pd.holdings.filterMap allocationOfHolding)) ∧
    (∀ (pd : PositionsData) (a : Allocation),
        a ∈ pd.holdings.filterMap allocationOfHolding →
        0 < a.quantity ∧ a.symbol ≠ "" ∧ 0 < a.current_price) ∧
    WebullBroker.get_current_allocation
        (Except.ok ⟨200, ⟨[⟨some "AAPL", 10, 150, 1500⟩]⟩⟩) =
      Except.ok [⟨"AAPL", 10, 150, 1500⟩] := by
  refine ⟨?_, ?_, ?_⟩
  · intro pd
    simp [WebullBroker.get_current_allocation, allocLoop_eq]
  · intro pd a ha
    rcases List.mem_filterMap.mp ha with ⟨h, _, hh⟩
    rw [allocationOfHolding_eq] at hh
    by_cases hc : 0 < h.qty ∧ pyTruthy h.symbol ∧ 0 < h.last_price
    · rw [if_pos hc] at hh
      obtain ⟨h1, h2, h3⟩ := hc
      cases hh
      refine ⟨h1, ?_, h3⟩
      simpa [pyTruthy] using h2
    · rw [if_neg hc] at hh
      exact absurd hh (by simp)
  · rfl

/-- C6: a non-success status from the position endpoint yields the empty
allocation list rather than an error, while a transport-level exception
raised during the request propagates to the caller. -/
theorem getCurrentAllocation_failure_policy :
    (∀ r : Response PositionsData, r.status_code ≠ 200 →
        WebullBroker.get_current_allocation (Except.ok r) = Except.ok []) ∧
    (∀ e : String,
        WebullBroker.get_current_allocation (Except.error e) = Except.error e) := by
  constructor
  · intro r hr
    simp [WebullBroker.get_current_allocation, hr]
  · intro e
    rfl

/-- Witness for C6 at a concrete non-success status. -/
theorem getCurrentAllocation_failure_policy_witness :
    WebullBroker.get_current_allocation
        (Except.ok ⟨500, ⟨[⟨some "AAPL", 10, 150, 1500⟩]⟩⟩) = Except.ok [] :=
  getCurrentAllocation_failure_policy.1 ⟨500, ⟨[⟨some "AAPL", 10, 150, 1500⟩]⟩⟩
    (by decide)

/-- Witness for C5: the example holding is kept and satisfies the filter
properties. -/
theorem getCurrentAllocation_filters_witness :
    0 < (10 : ℚ) ∧ "AAPL" ≠ "" ∧ 0 < (150 : ℚ) :=
  getCurrentAllocation_filters.2.1 ⟨[⟨some "AAPL", 10, 150, 1500⟩]⟩
    ⟨"AAPL", 10, 150, 1500⟩ (by decide)

/-- C7: for every configuration whose broker_type is none of alpaca,
robinhood and webull, create_broker raises the unsupported-broker-type
ValueError and constructs no adapter. -/
theorem createBroker_unsupported (cfg : BrokerSettings)
    (h : cfg.broker_type ∉ (["alpaca", "robinhood", "webull"] : List String)) :
    create_broker cfg =
        FactoryResult.err ("Unsupported broker type: " ++ cfg.broker_type) ∧
    ∀ b : BrokerCtor, create_broker cfg ≠ FactoryResult.constructed b := by
  simp only [List.mem_cons, List.mem_singleton, not_or] at h
  obtain ⟨h1, h2, h3⟩ := h
  have he : create_broker cfg =
      FactoryResult.err ("Unsupported broker type: " ++ cfg.broker_type) := by
    simp [create_broker, h1, h2, h3]
  exact ⟨he, fun b hb => by rw [he] at hb; exact FactoryResult.noConfusion hb⟩

/-- Witness for C7 at the unsupported broker type etrade. -/
theorem createBroker_unsupported_witness :
    create_broker ⟨"etrade", none, none, none, none, none, none, none, none, none, "US"⟩ =
      FactoryResult.err ("Unsupported broker type: " ++ "etrade") :=
  (createBroker_unsupported
    ⟨"etrade", none, none, none, none, none, none, none, none, none, "US"⟩
    (by decide)).1

/-- C8: for every configuration with broker_type webull and an absent
(or empty) app key or app secret, create_broker raises the credential
ValueError and never reaches the adapter constructor, which is the only
place account-discovery network calls happen. -/
theorem createBroker_webull_missing_credentials (cfg : BrokerSettings)
    (hbt : cfg.broker_type = "webull")
    (h : ¬ pyTruthy cfg.webull_app_key ∨ ¬ pyTruthy cfg.webull_app_secret) :
    create_broker cfg =
        FactoryResult.err
          "Webull App Key and App Secret are required. Get them from developer.webull.com" ∧
    ∀ b : BrokerCtor, create_broker cfg ≠ FactoryResult.constructed b := by
  have he : create_broker cfg =
      FactoryResult.err
        "Webull App Key and App Secret are required. Get them from developer.webull.com" := by
    simp [create_broker, hbt, h]
  exact ⟨he, fun b hb => by rw [he] at hb; exact FactoryResult.noConfusion hb⟩

/-- Witness for C8: broker_type webull with a missing app key. -/
theorem createBroker_webull_missing_credentials_witness :
    create_broker ⟨"webull", none, none, none, none, none, none, none, some "secret", none, "US"⟩ =
      FactoryResult.err
        "Webull App Key and App Secret are required. Get them from developer.webull.com" :=
  (createBroker_webull_missing_credentials
    ⟨"webull", none, none, none, none, none, none, none, some "secret", none, "US"⟩
    rfl (Or.inl (by decide))).1

/-- C9: whenever instrument resolution yields no instrument identifier,
sell returns false and submits no order. -/
theorem sell_unresolved_instrument (env : WebullBroker.SellEnv)
    (account_id symbol uuidHex : String) (quantity : ℚ)
    (h : WebullBroker.get_instrument_id env.instrument = none) :
    WebullBroker.sell env account_id symbol uuidHex quantity =
      (Except.ok false, []) := by
  unfold WebullBroker.sell WebullBroker.sellBody
  rw [h]
  exact rfl

/-- Witness for C9: a 404 instrument lookup makes sell fail without a
submission. -/
theorem sell_unresolved_instrument_witness :
    WebullBroker.sell
        ⟨Except.ok ⟨404, [⟨some "913256135"⟩]⟩, fun _ => Except.ok ⟨200, ()⟩⟩
        "acct-1" "AAPL" "0123456789abcdef" 5 = (Except.ok false, []) :=
  sell_unresolved_instrument
    ⟨Except.ok ⟨404, [⟨some "913256135"⟩]⟩, fun _ => Except.ok ⟨200, ()⟩⟩
    "acct-1" "AAPL" "0123456789abcdef" 5 rfl

/-- C10: sell validates nothing about the quantity: whenever instrument
resolution succeeds (yields a truthy, non-empty instrument id, the only
ids that pass the source guard if not instrument_id), exactly one MARKET
DAY SELL order is submitted with qty equal to int(quantity) truncated
toward zero, for every quantity including zero and negative values. -/
theorem sell_no_quantity_validation (env : WebullBroker.SellEnv)
    (account_id symbol uuidHex : String) (quantity : ℚ) (iid : String)
    (h : WebullBroker.get_instrument_id env.instrument = some iid)
    (hne : iid ≠ "") :
    (WebullBroker.sell env account_id symbol uuidHex quantity).2 =
      [{ account_id := account_id,
         client_order_id := "sell_" ++ symbol ++ "_" ++ uuidHex,
         instrument_id := iid,
         side := "SELL",
         tif := "DAY",
         order_type := "MARKET",
         qty := pyInt quantity }] := by
  unfold WebullBroker.sell WebullBroker.sellBody
  rw [h, catchFalse_snd]
  have ht : pyTruthy (some iid) := by simpa [pyTruthy] using hne
  simp [ht]

/-- Witness for C10 at a negative quantity: the order is still submitted
and carries the truncated quantity. -/
theorem sell_no_quantity_validation_witness :
    (WebullBroker.sell
        ⟨Except.ok ⟨200, [⟨some "913256135"⟩]⟩, fun _ => Except.ok ⟨200, ()⟩⟩
        "acct-1" "AAPL" "0123456789abcdef" (-37/10)).2 =
      [{ account_id := "acct-1",
         client_order_id := "sell_" ++ "AAPL" ++ "_" ++ "0123456789abcdef",
         instrument_id := "913256135",
         side := "SELL",
         tif := "DAY",
         order_type := "MARKET",
         qty := pyInt (-37/10) }] :=
  sell_no_quantity_validation
    ⟨Except.ok ⟨200, [⟨some "913256135"⟩]⟩, fun _ => Except.ok ⟨200, ()⟩⟩
    "acct-1" "AAPL" "0123456789abcdef" (-37/10) "913256135" rfl (by decide)

/-- A sell environment whose order placement raises a transport-level
exception. -/
def sellTransportEnv : WebullBroker.SellEnv :=
  { instrument := Except.ok ⟨200, [⟨some "913256135"⟩]⟩,
    place_order := fun _ => Except.error "ConnectionError: connection refused" }

/-- C3 counterexample: order placement raises a transport exception
inside the try body of sell, yet sell hands the caller false instead of
propagating the exception. -/
theorem sell_transport_exception_swallowed :
    (WebullBroker.sellBody sellTransportEnv "acct-1" "AAPL" "0123456789abcdef" 5).1 =
      Except.error "ConnectionError: connection refused" ∧
    (WebullBroker.sell sellTransportEnv "acct-1" "AAPL" "0123456789abcdef" 5).1 =
      Except.ok false :=
  ⟨rfl, rfl⟩

/-- C3 amended: buy and sell catch every exception raised inside their
try blocks, transport-level ones included, and always deliver a boolean
to the caller; no exception propagates out of them. -/
theorem buy_sell_catch_all_exceptions :
    (∀ (env : WebullBroker.SellEnv) (account_id symbol uuidHex : String) (quantity : ℚ),
        ∃ b : Bool,
          (WebullBroker.sell env account_id symbol uuidHex quantity).1 = Except.ok b) ∧
    (∀ (env : WebullBroker.BuyEnv) (account_id symbol uuidHex : String) (amount : ℚ),
        ∃ b : Bool,
          (WebullBroker.buy env account_id symbol uuidHex amount).1 = Except.ok b) := by
  constructor
  · intro env a s u q
    rcases hsb : WebullBroker.sellBody env a s u q with ⟨e | b, subs⟩
    · exact ⟨false, by simp [WebullBroker.sell, hsb, WebullBroker.catchFalse]⟩
    · exact ⟨b, by simp [WebullBroker.sell, hsb, WebullBroker.catchFalse]⟩
  · intro env a s u amt
    rcases hbb : WebullBroker.buyBody env a s u amt with ⟨e | b, subs⟩
    · exact ⟨false, by simp [WebullBroker.buy, hbb, WebullBroker.catchFalse]⟩
    · exact ⟨b, by simp [WebullBroker.buy, hbb, WebullBroker.catchFalse]⟩

/-- A buy environment whose positions payload holds one AAPL holding
carrying a negative last price. -/
def buyNegativePriceEnv : WebullBroker.BuyEnv :=
  { instrument := Except.ok ⟨200, [⟨some "913256135"⟩]⟩,
    positions := Except.ok ⟨200, ⟨[⟨some "AAPL", 10, -50, 0⟩]⟩⟩,
    place_order := fun _ => Except.ok ⟨200, ()⟩ }

/-- C2 counterexample: no holding with a positive last price is found,
yet buy submits an order with a negative quantity and returns true. -/
theorem buy_negative_price_submits_order :
    noPositivePriceFound buyNegativePriceEnv.positions "AAPL" ∧
    WebullBroker.buy buyNegativePriceEnv "acct-1" "AAPL" "0123456789abcdef" 1000 =
      (Except.ok true,
       [{ account_id := "acct-1",
          client_order_id := "buy_" ++ "AAPL" ++ "_" ++ "0123456789abcdef",
          instrument_id := "913256135",
          side := "BUY",
          tif := "DAY",
          order_type := "MARKET",
          qty := -20 }]) := by
  constructor
  · intro r hr
    injection hr with h
    subst h
    decide
  · have hq : pyInt (-20 : ℚ) = -20 := by norm_num [pyInt]
    have ht : pyTruthy (some "913256135") := by decide
    norm_num [WebullBroker.buy, WebullBroker.buyBody, buyNegativePriceEnv,
      WebullBroker.lastPriceFromPositions, WebullBroker.priceLoop,
      WebullBroker.get_instrument_id, WebullBroker.orderOutcome,
      WebullBroker.catchFalse, hq, ht]

/-- C2 amended: whenever the positions lookup yields no usable price for
the symbol (the request raised, the status was not 200, or every holding
for the symbol has last price zero, in particular when there is none),
buy returns false and submits no order: the unconditional recomputation
int(amount / last_price) runs with last_price None or 0, the raised
exception is caught by the outer handler, and false is returned before
any order placement. -/
theorem buy_no_usable_price (env : WebullBroker.BuyEnv)
    (account_id symbol uuidHex : String) (amount : ℚ)
    (h : noUsablePrice env.positions symbol) :
    WebullBroker.buy env account_id symbol uuidHex amount = (Except.ok false, []) := by
  unfold WebullBroker.buy WebullBroker.buyBody
  by_cases hins : pyTruthy (WebullBroker.get_instrument_id env.instrument)
  · rcases lastPrice_no_usable env.positions symbol h with h1 | h1 <;>
      simp [hins, h1, WebullBroker.catchFalse]
  · simp [hins, WebullBroker.catchFalse]

/-- A buy environment with an empty positions payload: the caller holds
no position in the symbol. -/
def buyNoPositionEnv : WebullBroker.BuyEnv :=
  { instrument := Except.ok ⟨200, [⟨some "913256135"⟩]⟩,
    positions := Except.ok ⟨200, ⟨[]⟩⟩,
    place_order := fun _ => Except.ok ⟨200, ()⟩ }

/-- Witness for the amended C2: a buy with no existing position returns
false and submits nothing. -/
theorem buy_no_usable_price_witness :
    WebullBroker.buy buyNoPositionEnv "acct-1" "AAPL" "0123456789abcdef" 1000 =
      (Except.ok false, []) :=
  buy_no_usable_price buyNoPositionEnv "acct-1" "AAPL" "0123456789abcdef" 1000
    (by intro r hr; injection hr with h; subst h; exact Or.inr (by decide))

/-- C1: on the no-position fallback path for a 1000 dollar buy the
claimed submitted quantity from the 50 dollar estimate price is 20, but
the code never submits it: the unconditional recomputation divides the
amount by the still absent last price, the TypeError is caught by the
outer handler, and buy returns false having placed no order. -/
theorem buy_fallback_estimate_never_submits :
    max 1 (pyInt (1000 / WebullBroker.estimated_price)) = 20 ∧
    WebullBroker.buy buyNoPositionEnv "acct-1" "AAPL" "0123456789abcdef" 1000 =
      (Except.ok false, []) := by
  constructor
  · norm_num [pyInt, WebullBroker.estimated_price]
  · rfl
